import Mathlib

/-!
Shallow embedding of the PFS_Backend service (PixelForge Studio backend API).

The repository carries two persistence iterations: a relational (SQLAlchemy)
user layer (`app/crud/user.py`, `app/dependencies/auth.py`, `app/routers/auth.py`)
and a document-store (Beanie/MongoDB) category/product layer
(`app/crud/category.py`, `app/crud/product.py`).  Each definition below is a
direct translation of the cited Python function; machine-level concerns that
the functions only thread through (SMTP delivery, actual JWT signing, password
hashing, the Python `hash` builtin) are taken as explicit function parameters.
-/

namespace PFS

/-! ## Python string primitives -/

/-- Python `str.lower()` (ASCII range, which covers every role value the
code compares). -/
def pyLower (s : String) : String :=
  String.mk (s.data.map Char.toLower)

/-- Python `str.strip()`: drop leading and trailing whitespace. -/
def pyStrip (s : String) : String :=
  String.mk (((s.data.dropWhile Char.isWhitespace).reverse.dropWhile
    Char.isWhitespace).reverse)

/-! ## Relational user model (`app/models/__init__.py`, `users` table) -/

/-- A row of the `users` table: id, email, hashed password, and the role
stored as a plain string (`role = Column(String(50), default="User")`). -/
structure UserRow where
  id : Nat
  email : String
  hashedPassword : String
  role : String
deriving Repr, DecidableEq

/-- The `users` table content, in insertion order. -/
abbrev UserDB := List UserRow

/-- The literal column default of `User.role` in `app/models/__init__.py`
(line 17): `default="User"`. -/
def userRoleColumnDefault : String := "User"

/-- Construction of a `users` row as SQLAlchemy performs it: a column whose
value is not supplied explicitly receives the declared column default. -/
def mkUserRow (id : Nat) (email hashedPassword : String) (role : Option String) : UserRow :=
  { id := id, email := email, hashedPassword := hashedPassword,
    role := role.getD userRoleColumnDefault }

/-- `UserCRUD.get_user_by_email` (`app/crud/user.py`): first row whose email
matches. -/
def get_user_by_email (db : UserDB) (email : String) : Option UserRow :=
  db.find? (fun u => u.email == email)

/-- `UserCRUD.get_user_by_id` (`app/crud/user.py`). -/
def get_user_by_id (db : UserDB) (userId : Nat) : Option UserRow :=
  db.find? (fun u => u.id == userId)

/-- Fresh autoincrement id for an insert into the `users` table. -/
def nextUserId (db : UserDB) : Nat :=
  (db.map UserRow.id).foldr Nat.max 0 + 1

/-- Payload of `UserCreate` (`app/schemas/__init__.py`): email and plaintext
password. -/
structure UserCreateReq where
  email : String
  password : String
deriving Repr, DecidableEq

/-- `UserCRUD.create_user` (`app/crud/user.py` lines 25-36): hashes the
password and inserts a row with `role="USER"` (the literal the function
passes).  `hashPw` stands for `get_password_hash`. -/
def create_user (hashPw : String → String) (db : UserDB) (user : UserCreateReq) :
    UserDB × UserRow :=
  let dbUser : UserRow :=
    { id := nextUserId db, email := user.email,
      hashedPassword := hashPw user.password, role := "USER" }
  (db ++ [dbUser], dbUser)

/-- Payload of `UserUpdate` (`app/schemas/__init__.py`): only email and
password are updatable fields; `none` models a field absent from the request
(`dict(exclude_unset=True)`). -/
structure UserUpdate where
  email : Option String := none
  password : Option String := none
deriving Repr, DecidableEq

/-- `UserCRUD.update_user` (`app/crud/user.py` lines 38-53): applies the
supplied fields, hashing a supplied password into `hashed_password`. -/
def update_user (hashPw : String → String) (db : UserDB) (userId : Nat)
    (upd : UserUpdate) : UserDB × Option UserRow :=
  match db.find? (fun u => u.id == userId) with
  | none => (db, none)
  | some u =>
    let u' : UserRow :=
      { u with
        email := upd.email.getD u.email,
        hashedPassword :=
          match upd.password with
          | some p => hashPw p
          | none => u.hashedPassword }
    (db.map (fun q => if q.id == userId then u' else q), some u')

/-! ## HTTP errors (`fastapi.HTTPException`) -/

/-- An `HTTPException`: status code, detail message, and the optional
`WWW-Authenticate` response header. -/
structure HTTPError where
  statusCode : Nat
  detail : String
  wwwAuthenticate : Option String
deriving Repr, DecidableEq

/-! ## Authentication dependency guards (`app/dependencies/auth.py`) -/

/-- The 401 raised when `verify_token` yields no subject. -/
def credentialsError : HTTPError :=
  { statusCode := 401, detail := "Could not validate credentials",
    wwwAuthenticate := some "Bearer" }

/-- The 401 raised when the token subject resolves to no persisted user. -/
def userNotFoundError : HTTPError :=
  { statusCode := 401, detail := "User not found", wwwAuthenticate := some "Bearer" }

/-- The 403 raised by `get_current_admin_user`. -/
def adminForbiddenError : HTTPError :=
  { statusCode := 403, detail := "Not enough permissions. Admin access required.",
    wwwAuthenticate := none }

/-- `get_current_user` (`app/dependencies/auth.py` lines 11-34).  `verifyToken`
stands for `app.services.auth.verify_token`, which returns the token subject
(an email) on a valid token and `None` otherwise. -/
def get_current_user (verifyToken : String → Option String) (db : UserDB)
    (token : String) : Except HTTPError UserRow :=
  match verifyToken token with
  | none => Except.error credentialsError
  | some email =>
    match get_user_by_email db email with
    | none => Except.error userNotFoundError
    | some user => Except.ok user

/-- `get_current_admin_user` (`app/dependencies/auth.py` lines 36-44):
`if current_user.role.lower() not in ["admin"]: raise 403`. -/
def get_current_admin_user (currentUser : UserRow) : Except HTTPError UserRow :=
  if ¬ (["admin"].contains (pyLower currentUser.role)) then
    Except.error adminForbiddenError
  else Except.ok currentUser

/-! ## Registration route (`app/routers/auth.py`) -/

/-- The success payload of `POST /auth/register`: the decorator status code
201, the issued access token and the basic user info echoed back. -/
structure RegisterSuccess where
  statusCode : Nat
  accessToken : String
  userId : Nat
  userEmail : String
  userRole : String
deriving Repr, DecidableEq

/-- The 400 `POST /auth/register` raises for a taken email. -/
def emailAlreadyRegisteredError : HTTPError :=
  { statusCode := 400, detail := "Email already registered", wwwAuthenticate := none }

/-- `register_user` (`app/routers/auth.py` lines 14-61): rejects an already
registered email with a 400, otherwise creates the user, issues an access
token whose subject is the new user's email and answers 201.  `mkToken` stands
for `create_access_token` applied to `{"sub": email}`; the best-effort welcome
email has no observable effect on the state modelled here. -/
def register_user (hashPw mkToken : String → String) (db : UserDB)
    (user : UserCreateReq) : UserDB × Except HTTPError RegisterSuccess :=
  match get_user_by_email db user.email with
  | some _ =>
    (db, Except.error emailAlreadyRegisteredError)
  | none =>
    let res := create_user hashPw db user
    (res.1, Except.ok
      { statusCode := 201, accessToken := mkToken res.2.email,
        userId := res.2.id, userEmail := res.2.email, userRole := res.2.role })

/-! ## Document-store layer (`app/models` Beanie variant, via `app/crud`)

Identifiers are MongoDB ObjectIds, handled in the source as strings checked
with `bson.ObjectId.is_valid`; timestamps (`datetime.utcnow()`) are modelled
as an abstract clock value passed to each mutating operation. -/

/-- `bson.ObjectId.is_valid` on a string argument: exactly 24 hexadecimal
characters. -/
def isValidObjectId (s : String) : Bool :=
  s.length == 24 && s.data.all (fun c => c.isDigit
    || ('a' ≤ c && c ≤ 'f') || ('A' ≤ c && c ≤ 'F'))

/-- A category document: name, optional description, active flag,
update timestamp. -/
structure CategoryDoc where
  id : String
  name : String
  description : Option String
  is_active : Bool
  updated_at : Nat
deriving Repr, DecidableEq

/-- A product document; `category_id` holds the id of the linked category
document, `images` the stored image references. -/
structure ProductDoc where
  id : String
  title : String
  description : Option String
  short_description : Option String
  price : Rat
  category_id : String
  rating : Rat
  images : List String
  is_locked : Bool
  updated_at : Nat
deriving Repr, DecidableEq

/-- The persisted state the category/product repositories act on: the two
collections plus the set of image files held by the active image backend
(`upload_service`). -/
structure Store where
  categories : List CategoryDoc
  products : List ProductDoc
  imageFiles : List String
deriving Repr, DecidableEq

/-- The `ValueError`s raised by `CategoryCRUD` and `ProductCRUD`, identified
by raise site and payload; `CrudError.message` renders the exact Python
message. -/
inductive CrudError where
  | cannotUpdateLocked : CrudError
  | cannotDeleteLocked : CrudError
  | invalidCategoryId (cid : String) : CrudError
  | categoryNotFoundOrInactive (cid : String) : CrudError
  | cannotDeleteCategory (productCount : Nat) : CrudError
  | categoryNameExists (name : String) : CrudError
  | invalidObjectIdCtor (s : String) : CrudError
deriving Repr, DecidableEq

/-- The message string each `ValueError` carries in the source. -/
def CrudError.message : CrudError → String
  | .cannotUpdateLocked => "Cannot update locked product"
  | .cannotDeleteLocked => "Cannot delete locked product"
  | .invalidCategoryId cid => s!"Invalid category ID: {cid}"
  | .categoryNotFoundOrInactive cid => s!"Category with ID {cid} not found or inactive"
  | .cannotDeleteCategory productCount =>
      s!"Cannot delete category. It has {productCount} associated products."
  | .categoryNameExists name =>
      "Category with name \x27" ++ name ++ "\x27 already exists"
  | .invalidObjectIdCtor s => s!"\x27{s}\x27 is not a valid ObjectId"

/-! ### `CategoryCRUD` (`app/crud/category.py`) -/

/-- `CategoryCRUD.get_category_by_id` (lines 8-12): `None` on a syntactically
invalid id, otherwise the document with that id. -/
def get_category_by_id (st : Store) (category_id : String) : Option CategoryDoc :=
  if ¬ isValidObjectId category_id then none
  else st.categories.find? (fun c => c.id == category_id)

/-- `CategoryCRUD.get_category_by_name` (lines 14-16). -/
def get_category_by_name (st : Store) (name : String) : Option CategoryDoc :=
  st.categories.find? (fun c => c.name == name)

/-- Payload of `CategoryUpdate`; `none` models an unset field
(`dict(exclude_unset=True)`). -/
structure CategoryUpdate where
  name : Option String := none
  description : Option String := none
  is_active : Option Bool := none
deriving Repr, DecidableEq

/-- `CategoryCRUD.update_category` (lines 47-69): `None` for an invalid or
unknown id; `ValueError` when renaming (Python-truthy new name different from
the stored one) to a name already in use; otherwise applies the supplied
fields and refreshes `updated_at`. -/
def update_category (st : Store) (category_id : String) (upd : CategoryUpdate)
    (now : Nat) : Store × Except CrudError (Option CategoryDoc) :=
  if ¬ isValidObjectId category_id then (st, Except.ok none)
  else
    match get_category_by_id st category_id with
    | none => (st, Except.ok none)
    | some db_category =>
      let renameConflict : Bool :=
        match upd.name with
        | some n =>
          (n != "") && (n != db_category.name) && (get_category_by_name st n).isSome
        | none => false
      if renameConflict then
        (st, Except.error (CrudError.categoryNameExists (upd.name.getD "")))
      else
        let c' : CategoryDoc :=
          { db_category with
            name := upd.name.getD db_category.name,
            description :=
              match upd.description with
              | some d => some d
              | none => db_category.description,
            is_active := upd.is_active.getD db_category.is_active,
            updated_at := now }
        ({ st with categories :=
            st.categories.map (fun q => if q.id == category_id then c' else q) },
         Except.ok (some c'))

/-- Number of products referencing a category
(`Product.find(Product.category_id == db_category).count()`). -/
def categoryProductCount (st : Store) (c : CategoryDoc) : Nat :=
  (st.products.filter (fun p => p.category_id == c.id)).length

/-- `CategoryCRUD.delete_category` (lines 71-89): soft delete; refused with a
`ValueError` citing the associated-product count while products reference the
category, otherwise sets `is_active = False` and keeps the record. -/
def delete_category (st : Store) (category_id : String) (now : Nat) :
    Store × Except CrudError Bool :=
  if ¬ isValidObjectId category_id then (st, Except.ok false)
  else
    match get_category_by_id st category_id with
    | none => (st, Except.ok false)
    | some db_category =>
      let product_count := categoryProductCount st db_category
      if product_count > 0 then
        (st, Except.error (CrudError.cannotDeleteCategory product_count))
      else
        let c' : CategoryDoc := { db_category with is_active := false, updated_at := now }
        ({ st with categories :=
            st.categories.map (fun q => if q.id == category_id then c' else q) },
         Except.ok true)

/-- `CategoryCRUD.hard_delete_category` (lines 91-106): same product-count
guard, then removes the record. -/
def hard_delete_category (st : Store) (category_id : String) :
    Store × Except CrudError Bool :=
  if ¬ isValidObjectId category_id then (st, Except.ok false)
  else
    match get_category_by_id st category_id with
    | none => (st, Except.ok false)
    | some db_category =>
      let product_count := categoryProductCount st db_category
      if product_count > 0 then
        (st, Except.error (CrudError.cannotDeleteCategory product_count))
      else
        ({ st with categories := st.categories.filter (fun q => q.id != category_id) },
         Except.ok true)

/-! ### `ProductCRUD` (`app/crud/product.py`) -/

/-- `ProductCRUD.get_product_by_id` (lines 9-13): `None` on a syntactically
invalid id, otherwise the document with that id. -/
def get_product_by_id (st : Store) (product_id : String) : Option ProductDoc :=
  if ¬ isValidObjectId product_id then none
  else st.products.find? (fun p => p.id == product_id)

/-- Payload of the product partial update consumed by
`ProductCRUD.update_product`; `none` models an unset field
(`dict(exclude_unset=True)`). -/
structure ProductUpdate where
  title : Option String := none
  description : Option String := none
  short_description : Option String := none
  price : Option Rat := none
  category_id : Option String := none
  rating : Option Rat := none
  images : Option (List String) := none
  is_locked : Option Bool := none
deriving Repr, DecidableEq

/-- The `setattr` loop of `update_product`: apply every supplied field and
refresh `updated_at`. -/
def applyProductUpdate (p : ProductDoc) (u : ProductUpdate) (now : Nat) : ProductDoc :=
  { p with
    title := u.title.getD p.title,
    description :=
      match u.description with
      | some d => some d
      | none => p.description,
    short_description :=
      match u.short_description with
      | some d => some d
      | none => p.short_description,
    price := u.price.getD p.price,
    category_id := u.category_id.getD p.category_id,
    rating := u.rating.getD p.rating,
    images := u.images.getD p.images,
    is_locked := u.is_locked.getD p.is_locked,
    updated_at := now }

/-- `db_product.save()`: write the mutated document back into the
collection. -/
def saveProduct (st : Store) (product_id : String) (p' : ProductDoc) : Store :=
  { st with products := st.products.map (fun q => if q.id == product_id then p' else q) }

/-- `ProductCRUD.update_product` (lines 93-127): `None` for an invalid or
unknown id; `ValueError` when the product is locked; a supplied (Python-truthy)
`category_id` is validated for format and for an existing, active category;
then every supplied field is applied and the document saved. -/
def update_product (st : Store) (product_id : String) (upd : ProductUpdate)
    (now : Nat) : Store × Except CrudError (Option ProductDoc) :=
  if ¬ isValidObjectId product_id then (st, Except.ok none)
  else
    match get_product_by_id st product_id with
    | none => (st, Except.ok none)
    | some db_product =>
      if db_product.is_locked then (st, Except.error CrudError.cannotUpdateLocked)
      else
        let catValidationError : Option CrudError :=
          match upd.category_id with
          | some cid =>
            if cid == "" then none
            else if ¬ isValidObjectId cid then some (CrudError.invalidCategoryId cid)
            else
              match st.categories.find? (fun c => c.id == cid) with
              | none => some (CrudError.categoryNotFoundOrInactive cid)
              | some category =>
                if ¬ category.is_active then
                  some (CrudError.categoryNotFoundOrInactive cid)
                else none
          | none => none
        match catValidationError with
        | some e => (st, Except.error e)
        | none =>
          match upd.category_id with
          | some cid =>
            if ¬ isValidObjectId cid then
              (st, Except.error (CrudError.invalidObjectIdCtor cid))
            else
              let p' := applyProductUpdate db_product upd now
              (saveProduct st product_id p', Except.ok (some p'))
          | none =>
            let p' := applyProductUpdate db_product upd now
            (saveProduct st product_id p', Except.ok (some p'))

/-- `ProductCRUD.delete_product` (lines 129-147): `False` for an invalid or
unknown id; `ValueError` when locked; otherwise deletes the stored images via
the upload service, then the document. -/
def delete_product (st : Store) (product_id : String) :
    Store × Except CrudError Bool :=
  if ¬ isValidObjectId product_id then (st, Except.ok false)
  else
    match get_product_by_id st product_id with
    | none => (st, Except.ok false)
    | some db_product =>
      if db_product.is_locked then (st, Except.error CrudError.cannotDeleteLocked)
      else
        let st1 := { st with
          imageFiles := st.imageFiles.filter (fun f => !(db_product.images.contains f)) }
        ({ st1 with products := st1.products.filter (fun q => q.id != product_id) },
         Except.ok true)

/-- `ProductCRUD.lock_product` (lines 149-160): sets `is_locked = True`. -/
def lock_product (st : Store) (product_id : String) (now : Nat) :
    Store × Option ProductDoc :=
  if ¬ isValidObjectId product_id then (st, none)
  else
    match get_product_by_id st product_id with
    | none => (st, none)
    | some db_product =>
      let p' : ProductDoc := { db_product with is_locked := true, updated_at := now }
      (saveProduct st product_id p', some p')

/-- `ProductCRUD.unlock_product` (lines 162-173): sets `is_locked = False`. -/
def unlock_product (st : Store) (product_id : String) (now : Nat) :
    Store × Option ProductDoc :=
  if ¬ isValidObjectId product_id then (st, none)
  else
    match get_product_by_id st product_id with
    | none => (st, none)
    | some db_product =>
      let p' : ProductDoc := { db_product with is_locked := false, updated_at := now }
      (saveProduct st product_id p', some p')

/-! ## Image upload handling (`app/routers/products.py`, `app/services/upload.py`) -/

/-- A multipart upload file as the routers see it: its (possibly empty)
filename. -/
structure UploadFile where
  filename : String
deriving Repr, DecidableEq

/-- The non-empty-file filter both product routers apply:
`[img for img in images if img.filename and img.filename.strip()]`. -/
def validImages (images : List UploadFile) : List UploadFile :=
  images.filter (fun img => (img.filename != "") && (pyStrip img.filename != ""))

/-- The 400 both product routers and the upload facade raise on more than
five images. -/
def maxImagesError : HTTPError :=
  { statusCode := 400, detail := "Maximum 5 images allowed per product",
    wwwAuthenticate := none }

/-- The image-handling step of the create-product route
(`app/routers/products.py` lines 63-76): filters out empty files, rejects
more than 5 valid files with a 400, otherwise passes the valid files on to
the upload service. -/
def create_product_image_step (images : List UploadFile) :
    Except HTTPError (List UploadFile) :=
  if images.length > 0 then
    let valid_images := validImages images
    if valid_images.length > 5 then Except.error maxImagesError
    else Except.ok valid_images
  else Except.ok []

/-- The image-handling step of the update-product route
(`app/routers/products.py` lines 309-327): identical filtering and 400 on
more than 5 valid files. -/
def update_product_image_step (images : List UploadFile) :
    Except HTTPError (List UploadFile) :=
  if images.length > 0 then
    let valid_images := validImages images
    if valid_images.length > 5 then Except.error maxImagesError
    else Except.ok valid_images
  else Except.ok []

/-- `FileUploadService.upload_product_images` (`app/services/upload.py` lines
55-66): rejects a batch of more than 5 files with a 400 before delegating to
the active backend (`backend` stands for the ImageKit or local-storage
upload). -/
def upload_product_images (backend : List UploadFile → List String)
    (files : List UploadFile) : Except HTTPError (List String) :=
  if files.length > 5 then Except.error maxImagesError
  else Except.ok (backend files)

/-! ## Pagination query parameters (`app/routers`) -/

/-- A FastAPI integer query parameter: its default and the optional `ge`/`le`
validation bounds. -/
structure QueryIntSpec where
  defaultVal : Int
  ge : Option Int
  le : Option Int
deriving Repr, DecidableEq

/-- FastAPI parameter validation: a supplied value is accepted exactly when
it meets every declared bound. -/
def acceptsQuery (s : QueryIntSpec) (v : Int) : Bool :=
  (match s.ge with | some b => b ≤ v | none => true)
    && (match s.le with | some b => v ≤ b | none => true)

/-- `skip` of `GET /users/` (`app/routers/users.py` line 31): a plain `int`
parameter, no declared bounds. -/
def usersSkipSpec : QueryIntSpec := { defaultVal := 0, ge := none, le := none }

/-- `limit` of `GET /users/` (`app/routers/users.py` line 32): a plain `int`
parameter, no declared bounds. -/
def usersLimitSpec : QueryIntSpec := { defaultVal := 100, ge := none, le := none }

/-- `skip` of `GET /products/` (`app/routers/products.py` line 197):
`Query(0, ge=0)`. -/
def productsSkipSpec : QueryIntSpec := { defaultVal := 0, ge := some 0, le := none }

/-- `limit` of `GET /products/` (`app/routers/products.py` line 198):
`Query(100, ge=1, le=1000)`. -/
def productsLimitSpec : QueryIntSpec :=
  { defaultVal := 100, ge := some 1, le := some 1000 }

/-- `skip` of `GET /products/unlocked` (`app/routers/products.py` line 147). -/
def unlockedSkipSpec : QueryIntSpec := { defaultVal := 0, ge := some 0, le := none }

/-- `limit` of `GET /products/unlocked` (`app/routers/products.py` line 148). -/
def unlockedLimitSpec : QueryIntSpec :=
  { defaultVal := 100, ge := some 1, le := some 1000 }

/-- `skip` of `GET /categories/` (`app/routers/categories.py` line 49). -/
def categoriesSkipSpec : QueryIntSpec := { defaultVal := 0, ge := some 0, le := none }

/-- `limit` of `GET /categories/` (`app/routers/categories.py` line 50). -/
def categoriesLimitSpec : QueryIntSpec :=
  { defaultVal := 100, ge := some 1, le := some 1000 }

/-! ## Inquiry reference codes (`app/routers/inquiry.py`, `app/services/email.py`) -/

/-- A Python `datetime.now()` value, to the fields `strftime` can read. -/
structure PyDateTime where
  year : Nat
  month : Nat
  day : Nat
  hour : Nat
  minute : Nat
  second : Nat
deriving Repr, DecidableEq

/-- Python `"%02d" % n` for `n < 100` (month and day in `%Y%m%d`). -/
def twoDigits (n : Nat) : String :=
  String.mk [Nat.digitChar (n / 10 % 10), Nat.digitChar (n % 10)]

/-- Python zero-padded 4-digit formatting (`"%04d"` / `f"{n:04d}"`) for
`n < 10000`; every call site below reduces its argument modulo 10000 (the
year field of `%Y` is likewise four digits for any calendar year). -/
def fourDigits (n : Nat) : String :=
  String.mk [Nat.digitChar (n / 1000 % 10), Nat.digitChar (n / 100 % 10),
             Nat.digitChar (n / 10 % 10), Nat.digitChar (n % 10)]

/-- `datetime.now().strftime("%Y%m%d")`. -/
def strftimeYmd (t : PyDateTime) : String :=
  fourDigits t.year ++ twoDigits t.month ++ twoDigits t.day

/-- The reference code built at `app/routers/inquiry.py` line 55 (and
rendered identically into the confirmation email at
`app/services/email.py` line 212):
`f"INQ-{datetime.now().strftime('%Y%m%d')}-{hash(inquiry.email) % 10000:04d}"`.
`pyHash` stands for the Python `hash` builtin; Python `%` on a positive
modulus is the Euclidean remainder. -/
def inquiryReferenceId (pyHash : String → Int) (now : PyDateTime)
    (email : String) : String :=
  "INQ-" ++ strftimeYmd now ++ "-" ++ fourDigits ((pyHash email).emod 10000).toNat

/-- The inquiry payload (`InquiryRequest` in `app/schemas/__init__.py`),
after validation. -/
structure InquiryRequest where
  first_name : String
  last_name : String
  email : String
  phone_number : Option String
  subject : String
  message : String
  subscribe_newsletter : Bool
deriving Repr, DecidableEq

/-- The acknowledgement `POST /inquiry/contact` returns. -/
structure InquiryResponse where
  success : Bool
  message : String
  reference_id : String
deriving Repr, DecidableEq

/-- `submit_inquiry` (`app/routers/inquiry.py` lines 16-67), reduced to its
observable response: the notification email is deferred to a background task
and does not influence the response. -/
def submit_inquiry (pyHash : String → Int) (now : PyDateTime)
    (inquiry : InquiryRequest) : InquiryResponse :=
  { success := true,
    message := "Thank you for your inquiry! We have received your message and will get back to you soon.",
    reference_id := inquiryReferenceId pyHash now inquiry.email }

/-! ## Helper lemmas -/

theorem find?_beq_eq {α : Type} (key : α → String) (k : String) {l : List α} {a : α}
    (h : l.find? (fun q => key q == k) = some a) : key a = k := by
  have := List.find?_some h
  exact eq_of_beq this

theorem find?_map_overwrite {α : Type} (key : α → String) (k : String) (a a' : α)
    (hk : (key a' == k) = true) :
    ∀ l : List α, l.find? (fun q => key q == k) = some a →
      (l.map (fun q => if key q == k then a' else q)).find? (fun q => key q == k)
        = some a' := by
  intro l
  induction l with
  | nil => intro h; simp at h
  | cons b t ih =>
    intro h
    cases hb : (key b == k) with
    | true =>
      simp only [List.map_cons, if_pos hb]
      simp [List.find?, hk]
    | false =>
      simp only [List.find?, hb] at h
      simp only [List.map_cons]
      rw [if_neg (by simp [hb])]
      simp only [List.find?, hb]
      exact ih h

theorem find?_filter_out {α : Type} (key : α → String) (k : String) (l : List α) :
    (l.filter (fun q => key q != k)).find? (fun q => key q == k) = none := by
  rw [List.find?_eq_none]
  intro x hx
  have hmem := (List.mem_filter.mp hx).2
  simpa using hmem

theorem get_category_by_id_some {st : Store} {cid : String} {c : CategoryDoc}
    (h : get_category_by_id st cid = some c) :
    isValidObjectId cid = true
      ∧ st.categories.find? (fun q => q.id == cid) = some c ∧ c.id = cid := by
  by_cases hv : isValidObjectId cid = true
  · have hfind : st.categories.find? (fun q => q.id == cid) = some c := by
      simpa [get_category_by_id, hv] using h
    exact ⟨hv, hfind, find?_beq_eq CategoryDoc.id cid hfind⟩
  · exfalso
    simp [get_category_by_id, hv] at h

theorem get_product_by_id_some {st : Store} {pid : String} {p : ProductDoc}
    (h : get_product_by_id st pid = some p) :
    isValidObjectId pid = true
      ∧ st.products.find? (fun q => q.id == pid) = some p ∧ p.id = pid := by
  by_cases hv : isValidObjectId pid = true
  · have hfind : st.products.find? (fun q => q.id == pid) = some p := by
      simpa [get_product_by_id, hv] using h
    exact ⟨hv, hfind, find?_beq_eq ProductDoc.id pid hfind⟩
  · exfalso
    simp [get_product_by_id, hv] at h

/-! ## Claims -/

/-- C9: an identifier that is not a syntactically valid ObjectId makes every
id-taking `CategoryCRUD` and `ProductCRUD` operation return an absent result
(`None` or `False`) without raising and without touching the stored state. -/
theorem invalid_objectid_is_safe (st : Store) (s : String) (cu : CategoryUpdate)
    (pu : ProductUpdate) (now : Nat) (hinvalid : isValidObjectId s = false) :
    get_category_by_id st s = none ∧
    update_category st s cu now = (st, Except.ok none) ∧
    delete_category st s now = (st, Except.ok false) ∧
    hard_delete_category st s = (st, Except.ok false) ∧
    get_product_by_id st s = none ∧
    update_product st s pu now = (st, Except.ok none) ∧
    delete_product st s = (st, Except.ok false) ∧
    lock_product st s now = (st, none) ∧
    unlock_product st s now = (st, none) := by
  refine ⟨?_, ?_, ?_, ?_, ?_, ?_, ?_, ?_, ?_⟩ <;>
    simp [get_category_by_id, update_category, delete_category, hard_delete_category,
      get_product_by_id, update_product, delete_product, lock_product, unlock_product,
      hinvalid]

theorem invalid_objectid_is_safe_witness :
    isValidObjectId "not-an-objectid" = false ∧
    get_category_by_id { categories := [], products := [], imageFiles := [] }
      "not-an-objectid" = none := by
  refine ⟨by decide, ?_⟩
  exact (invalid_objectid_is_safe
    { categories := [], products := [], imageFiles := [] } "not-an-objectid"
    {} {} 0 (by decide)).1

/-- C10: updating a category while supplying its own current name never
triggers the duplicate-name error: the update succeeds and the stored name is
unchanged (the conflict check only runs when the supplied name differs from
the stored one). -/
theorem category_update_own_name_succeeds (st : Store) (cid : String)
    (upd : CategoryUpdate) (now : Nat) (c : CategoryDoc)
    (hfind : get_category_by_id st cid = some c) (hname : upd.name = some c.name) :
    ∃ c', update_category st cid upd now
        = ({ st with categories :=
              st.categories.map (fun q => if q.id == cid then c' else q) },
           Except.ok (some c'))
      ∧ c'.name = c.name := by
  obtain ⟨hv, hfind', _⟩ := get_category_by_id_some hfind
  refine ⟨{ c with
      name := upd.name.getD c.name,
      description := match upd.description with
        | some d => some d
        | none => c.description,
      is_active := upd.is_active.getD c.is_active,
      updated_at := now }, ?_, by simp [hname]⟩
  unfold update_category
  rw [if_neg (by simp [hv])]
  rw [hfind]
  simp only [hname, bne_self_eq_false, Bool.and_false, Bool.false_and,
    Bool.if_false_left]
  simp [hname]

/-! Concrete fixtures used by the closed witness statements below. -/

def catA : CategoryDoc :=
  { id := "aaaaaaaaaaaaaaaaaaaaaaaa", name := "Photo Magnets", description := none, is_active := true, updated_at := 0 }

def prodLocked : ProductDoc :=
  { id := "bbbbbbbbbbbbbbbbbbbbbbbb", title := "Magnet", description := none, short_description := none, price := 5, category_id := "aaaaaaaaaaaaaaaaaaaaaaaa", rating := 0, images := ["uploads/products/a.png"], is_locked := true, updated_at := 0 }

def prodFree : ProductDoc :=
  { id := "cccccccccccccccccccccccc", title := "Print", description := none, short_description := none, price := 7, category_id := "aaaaaaaaaaaaaaaaaaaaaaaa", rating := 0, images := [], is_locked := false, updated_at := 0 }

def storeCatOnly : Store :=
  { categories := [catA], products := [], imageFiles := [] }

def storeWithRef : Store :=
  { categories := [catA], products := [prodFree], imageFiles := [] }

def storeLocked : Store :=
  { categories := [catA], products := [prodLocked], imageFiles := ["uploads/products/a.png"] }

theorem category_update_own_name_succeeds_witness :
    (get_category_by_id storeCatOnly "aaaaaaaaaaaaaaaaaaaaaaaa" = some catA)
    ∧ ∃ c', (update_category storeCatOnly "aaaaaaaaaaaaaaaaaaaaaaaa"
        { name := some "Photo Magnets", description := some "d", is_active := none } 5).2
      = Except.ok (some c') ∧ c'.name = catA.name := by
  refine ⟨by rfl, ?_⟩
  obtain ⟨c', heq, hn⟩ := category_update_own_name_succeeds storeCatOnly
    "aaaaaaaaaaaaaaaaaaaaaaaa"
    { name := some "Photo Magnets", description := some "d", is_active := none } 5
    catA (by rfl) (by rfl)
  exact ⟨c', by rw [heq], hn⟩

/-- C4: while at least one product references a category, both soft and hard
delete fail with the `ValueError` whose message reports the associated-product
count and leave the store unchanged; with no referencing product, soft delete
keeps the record with `is_active = False` and hard delete removes it. -/
theorem category_delete_guard (st : Store) (cid : String) (now : Nat)
    (c : CategoryDoc) (hfind : get_category_by_id st cid = some c) :
    (categoryProductCount st c > 0 →
      delete_category st cid now
        = (st, Except.error (CrudError.cannotDeleteCategory (categoryProductCount st c))) ∧
      hard_delete_category st cid
        = (st, Except.error (CrudError.cannotDeleteCategory (categoryProductCount st c))) ∧
      (CrudError.cannotDeleteCategory (categoryProductCount st c)).message
        = "Cannot delete category. It has "
            ++ toString (categoryProductCount st c) ++ " associated products.") ∧
    (categoryProductCount st c = 0 →
      (delete_category st cid now).2 = Except.ok true ∧
      get_category_by_id (delete_category st cid now).1 cid
        = some { c with is_active := false, updated_at := now } ∧
      (hard_delete_category st cid).2 = Except.ok true ∧
      get_category_by_id (hard_delete_category st cid).1 cid = none) := by
  obtain ⟨hv, hfind', hcid⟩ := get_category_by_id_some hfind
  constructor
  · intro hpos
    refine ⟨?_, ?_, rfl⟩
    · unfold delete_category
      rw [if_neg (by simp [hv]), hfind]
      simp [hpos]
    · unfold hard_delete_category
      rw [if_neg (by simp [hv]), hfind]
      simp [hpos]
  · intro hzero
    have hsoft : delete_category st cid now
        = ({ st with categories :=
              st.categories.map (fun q => if q.id == cid then { c with is_active := false, updated_at := now } else q) },
           Except.ok true) := by
      unfold delete_category
      rw [if_neg (by simp [hv]), hfind]
      simp [hzero]
    have hhard : hard_delete_category st cid
        = ({ st with categories :=
              st.categories.filter (fun q => q.id != cid) },
           Except.ok true) := by
      unfold hard_delete_category
      rw [if_neg (by simp [hv]), hfind]
      simp [hzero]
    refine ⟨by rw [hsoft], ?_, by rw [hhard], ?_⟩
    · rw [hsoft]
      unfold get_category_by_id
      rw [if_neg (by simp [hv])]
      exact find?_map_overwrite CategoryDoc.id cid c _ (by simp [hcid]) _ hfind'
    · rw [hhard]
      unfold get_category_by_id
      rw [if_neg (by simp [hv])]
      exact find?_filter_out CategoryDoc.id cid st.categories

theorem category_delete_guard_witness :
    (get_category_by_id storeWithRef "aaaaaaaaaaaaaaaaaaaaaaaa" = some catA)
    ∧ categoryProductCount storeWithRef catA = 1
    ∧ (delete_category storeWithRef "aaaaaaaaaaaaaaaaaaaaaaaa" 3).2
        = Except.error (CrudError.cannotDeleteCategory 1)
    ∧ (hard_delete_category storeWithRef "aaaaaaaaaaaaaaaaaaaaaaaa").2
        = Except.error (CrudError.cannotDeleteCategory 1) := by
  have h := (category_delete_guard storeWithRef "aaaaaaaaaaaaaaaaaaaaaaaa" 3 catA
    (by rfl)).1 (by decide)
  exact ⟨by rfl, by rfl, by rw [h.1]; rfl, by rw [h.2.1]; rfl⟩

theorem update_unlocked_no_lock_error (st : Store) (pid : String)
    (upd : ProductUpdate) (now : Nat) (p : ProductDoc)
    (hfind : get_product_by_id st pid = some p) (hlock : p.is_locked = false) :
    (update_product st pid upd now).2 ≠ Except.error CrudError.cannotUpdateLocked ∧
    (delete_product st pid).2 ≠ Except.error CrudError.cannotDeleteLocked := by
  obtain ⟨hv, hfind', _⟩ := get_product_by_id_some hfind
  constructor
  · rcases hcat : upd.category_id with _ | cid
    · simp [update_product, get_product_by_id, hv, hfind', hlock, hcat]
    · by_cases hempty : (cid == "") = true
      · by_cases hcv : isValidObjectId cid = true
        · simp [update_product, get_product_by_id, hv, hfind', hlock, hcat, hempty, hcv]
        · simp [update_product, get_product_by_id, hv, hfind', hlock, hcat, hempty, hcv]
      · by_cases hcv : isValidObjectId cid = true
        · rcases hcfind : st.categories.find? (fun c => c.id == cid) with _ | c
          · simp [update_product, get_product_by_id, hv, hfind', hlock, hcat, hempty,
              hcv, hcfind]
          · by_cases hact : c.is_active = true
            · simp [update_product, get_product_by_id, hv, hfind', hlock, hcat, hempty,
                hcv, hcfind, hact]
            · simp [update_product, get_product_by_id, hv, hfind', hlock, hcat, hempty,
                hcv, hcfind, hact]
        · simp [update_product, get_product_by_id, hv, hfind', hlock, hcat, hempty, hcv]
  · simp [delete_product, get_product_by_id, hv, hfind', hlock]

/-- C3: a locked product makes `update_product` and `delete_product` fail with
the corresponding `ValueError` and leaves the store (product, images) exactly
as it was; once `unlock_product` clears the flag, neither operation is
rejected for being locked any more. -/
theorem locked_product_guard (st : Store) (pid : String) (upd : ProductUpdate)
    (now now2 now3 : Nat) (p : ProductDoc)
    (hfind : get_product_by_id st pid = some p) (hlock : p.is_locked = true) :
    update_product st pid upd now = (st, Except.error CrudError.cannotUpdateLocked) ∧
    delete_product st pid = (st, Except.error CrudError.cannotDeleteLocked) ∧
    CrudError.cannotUpdateLocked.message = "Cannot update locked product" ∧
    CrudError.cannotDeleteLocked.message = "Cannot delete locked product" ∧
    (unlock_product st pid now2).2 = some { p with is_locked := false, updated_at := now2 } ∧
    (update_product (unlock_product st pid now2).1 pid upd now3).2
        ≠ Except.error CrudError.cannotUpdateLocked ∧
    (delete_product (unlock_product st pid now2).1 pid).2
        ≠ Except.error CrudError.cannotDeleteLocked := by
  obtain ⟨hv, hfind', hpid⟩ := get_product_by_id_some hfind
  have hupd : update_product st pid upd now
      = (st, Except.error CrudError.cannotUpdateLocked) := by
    simp [update_product, get_product_by_id, hv, hfind', hlock]
  have hdel : delete_product st pid
      = (st, Except.error CrudError.cannotDeleteLocked) := by
    simp [delete_product, get_product_by_id, hv, hfind', hlock]
  have hunlock : unlock_product st pid now2
      = (saveProduct st pid { p with is_locked := false, updated_at := now2 },
         some { p with is_locked := false, updated_at := now2 }) := by
    simp [unlock_product, get_product_by_id, hv, hfind']
  have hfind2 : get_product_by_id (unlock_product st pid now2).1 pid
      = some { p with is_locked := false, updated_at := now2 } := by
    rw [hunlock]
    unfold get_product_by_id saveProduct
    rw [if_neg (by simp [hv])]
    exact find?_map_overwrite ProductDoc.id pid p _ (by simp [hpid]) _ hfind'
  have hsafe := update_unlocked_no_lock_error (unlock_product st pid now2).1 pid upd
    now3 { p with is_locked := false, updated_at := now2 } hfind2 rfl
  exact ⟨hupd, hdel, rfl, rfl, by rw [hunlock], hsafe.1, hsafe.2⟩

theorem locked_product_guard_witness :
    (get_product_by_id storeLocked "bbbbbbbbbbbbbbbbbbbbbbbb" = some prodLocked) ∧
    prodLocked.is_locked = true ∧
    update_product storeLocked "bbbbbbbbbbbbbbbbbbbbbbbb" {} 1
      = (storeLocked, Except.error CrudError.cannotUpdateLocked) ∧
    delete_product storeLocked "bbbbbbbbbbbbbbbbbbbbbbbb"
      = (storeLocked, Except.error CrudError.cannotDeleteLocked) ∧
    (update_product (unlock_product storeLocked "bbbbbbbbbbbbbbbbbbbbbbbb" 2).1
        "bbbbbbbbbbbbbbbbbbbbbbbb" {} 3).2
      ≠ Except.error CrudError.cannotUpdateLocked := by
  have h := locked_product_guard storeLocked "bbbbbbbbbbbbbbbbbbbbbbbb" {} 1 2 3
    prodLocked (by rfl) (by rfl)
  exact ⟨by rfl, by rfl, h.1, h.2.1, h.2.2.2.2.2.1⟩

/-- C1: `get_current_user` fails with a 401 carrying a
`WWW-Authenticate: Bearer` header when token verification yields no subject or
when no user carries the subject email, and otherwise returns the persisted
user whose email is the token subject; `get_current_admin_user` returns that
user exactly when the role compared case-insensitively equals `admin`, and
fails with a 403 otherwise. -/
theorem auth_guards_correct (verifyToken : String → Option String) (db : UserDB)
    (token : String) :
    (verifyToken token = none →
      get_current_user verifyToken db token = Except.error credentialsError) ∧
    (∀ email, verifyToken token = some email → get_user_by_email db email = none →
      get_current_user verifyToken db token = Except.error userNotFoundError) ∧
    (∀ email user, verifyToken token = some email →
      get_user_by_email db email = some user →
      get_current_user verifyToken db token = Except.ok user ∧ user.email = email) ∧
    (credentialsError.statusCode = 401
      ∧ credentialsError.wwwAuthenticate = some "Bearer") ∧
    (userNotFoundError.statusCode = 401
      ∧ userNotFoundError.wwwAuthenticate = some "Bearer") ∧
    (∀ user : UserRow,
      (get_current_admin_user user = Except.ok user ↔ pyLower user.role = "admin") ∧
      (pyLower user.role ≠ "admin" →
        get_current_admin_user user = Except.error adminForbiddenError)) ∧
    adminForbiddenError.statusCode = 403 := by
  refine ⟨?_, ?_, ?_, ⟨rfl, rfl⟩, ⟨rfl, rfl⟩, ?_, rfl⟩
  · intro h
    simp [get_current_user, h]
  · intro email h hnone
    simp [get_current_user, h, hnone]
  · intro email user h hsome
    exact ⟨by simp [get_current_user, h, hsome],
      find?_beq_eq UserRow.email email hsome⟩
  · intro user
    by_cases hrole : pyLower user.role = "admin"
    · refine ⟨⟨fun _ => hrole, fun _ => ?_⟩, fun hne => absurd hrole hne⟩
      simp [get_current_admin_user, hrole]
    · have hcontains : (["admin"].contains (pyLower user.role)) = false := by
        simp [List.contains, hrole]
      refine ⟨⟨fun hok => ?_, fun h => absurd h hrole⟩, fun _ => ?_⟩
      · exfalso
        unfold get_current_admin_user at hok
        rw [hcontains] at hok
        simp at hok
      · unfold get_current_admin_user
        rw [hcontains]
        simp

theorem auth_guards_correct_witness :
    get_current_user (fun _ => some "admin@pfs.in")
        [{ id := 1, email := "admin@pfs.in", hashedPassword := "h", role := "ADMIN" }]
        "some.jwt.token"
      = Except.ok { id := 1, email := "admin@pfs.in", hashedPassword := "h", role := "ADMIN" } ∧
    get_current_admin_user
        { id := 1, email := "admin@pfs.in", hashedPassword := "h", role := "ADMIN" }
      = Except.ok { id := 1, email := "admin@pfs.in", hashedPassword := "h", role := "ADMIN" } ∧
    get_current_user (fun _ => none)
        [{ id := 1, email := "admin@pfs.in", hashedPassword := "h", role := "ADMIN" }]
        "bad"
      = Except.error credentialsError := by
  refine ⟨?_, ?_, ?_⟩
  · exact ((auth_guards_correct (fun _ => some "admin@pfs.in")
      [{ id := 1, email := "admin@pfs.in", hashedPassword := "h", role := "ADMIN" }]
      "some.jwt.token").2.2.1 "admin@pfs.in"
      { id := 1, email := "admin@pfs.in", hashedPassword := "h", role := "ADMIN" }
      rfl (by rfl)).1
  · exact ((auth_guards_correct (fun _ => some "admin@pfs.in")
      [{ id := 1, email := "admin@pfs.in", hashedPassword := "h", role := "ADMIN" }]
      "some.jwt.token").2.2.2.2.2.1
      { id := 1, email := "admin@pfs.in", hashedPassword := "h", role := "ADMIN" }).1.mpr
      (by rfl)
  · exact (auth_guards_correct (fun _ => none)
      [{ id := 1, email := "admin@pfs.in", hashedPassword := "h", role := "ADMIN" }]
      "bad").1 rfl

def registeredUser : UserRow :=
  { id := 1, email := "test@pixelforgestudio.in", hashedPassword := "testpassword123", role := "USER" }

/-- C2: registering an email that already belongs to a persisted user fails
with a 400 whose message contains "already registered" and leaves the user
table unchanged; registering a fresh email appends exactly the new user (with
a hashed password and role `USER`) and answers 201 with an access token whose
subject is that email. -/
theorem register_email_uniqueness (hashPw mkToken : String → String) (db : UserDB)
    (req : UserCreateReq) :
    ((get_user_by_email db req.email).isSome →
      register_user hashPw mkToken db req = (db, Except.error emailAlreadyRegisteredError) ∧
      emailAlreadyRegisteredError.statusCode = 400 ∧
      ∃ pre post, emailAlreadyRegisteredError.detail = pre ++ "already registered" ++ post) ∧
    (get_user_by_email db req.email = none →
      register_user hashPw mkToken db req
        = (db ++ [{ id := nextUserId db, email := req.email, hashedPassword := hashPw req.password, role := "USER" }],
           Except.ok { statusCode := 201, accessToken := mkToken req.email, userId := nextUserId db, userEmail := req.email, userRole := "USER" })) := by
  constructor
  · intro hsome
    rcases h : get_user_by_email db req.email with _ | u
    · rw [h] at hsome
      simp at hsome
    · refine ⟨?_, rfl, "Email ", "", by rfl⟩
      unfold register_user
      rw [h]
  · intro hnone
    unfold register_user
    rw [hnone]
    rfl

theorem register_email_uniqueness_witness :
    (get_user_by_email [] "test@pixelforgestudio.in" = none) ∧
    register_user id id [] { email := "test@pixelforgestudio.in", password := "testpassword123" }
      = ([registeredUser],
         Except.ok { statusCode := 201, accessToken := "test@pixelforgestudio.in", userId := 1, userEmail := "test@pixelforgestudio.in", userRole := "USER" }) ∧
    (register_user id id [registeredUser]
        { email := "test@pixelforgestudio.in", password := "other-password" }).1
      = [registeredUser] := by
  refine ⟨rfl, ?_, ?_⟩
  · exact (register_email_uniqueness id id []
      { email := "test@pixelforgestudio.in", password := "testpassword123" }).2 rfl
  · have h := ((register_email_uniqueness id id [registeredUser]
      { email := "test@pixelforgestudio.in", password := "other-password" }).1
      (by rfl)).1
    rw [h]

/-- The role invariant the spec asserts for the `users` table. -/
def roleInvariant (db : UserDB) : Prop :=
  ∀ u ∈ db, u.role = "ADMIN" ∨ u.role = "USER"

/-- C5 counterexample: the `users.role` column default in
`app/models/__init__.py` (line 17) is the mixed-case string `"User"`, so a row
persisted without an explicit role receives `"User"`, which is neither of the
uppercase values `"ADMIN"`/`"USER"` the claim asserts as the default. -/
theorem user_role_default_counterexample :
    (mkUserRow 7 "noreply@example.com" "hash" none).role = "User" ∧
    userRoleColumnDefault ≠ "ADMIN" ∧ userRoleColumnDefault ≠ "USER" :=
  ⟨rfl, by decide, by decide⟩

/-- C5 (amended): every user created through `UserCRUD.create_user` receives
the literal role `"USER"`, and `UserCRUD.update_user` (whose payload carries
only email/password) never changes any stored role, so the repository
operations preserve the two-uppercase-values invariant; the model-level column
default, however, is the mixed-case `"User"`, not `"USER"`. -/
theorem user_role_invariant_amended (hashPw : String → String) (db : UserDB)
    (req : UserCreateReq) (uid : Nat) (upd : UserUpdate) (hinv : roleInvariant db) :
    (create_user hashPw db req).2.role = "USER" ∧
    roleInvariant (create_user hashPw db req).1 ∧
    roleInvariant (update_user hashPw db uid upd).1 := by
  refine ⟨rfl, ?_, ?_⟩
  · intro u hu
    rcases List.mem_append.mp hu with h | h
    · exact hinv u h
    · simp at h
      rw [h]
      right
      rfl
  · unfold update_user
    rcases h : db.find? (fun u => u.id == uid) with _ | u0
    · rw [h]
      exact hinv
    · rw [h]
      intro v hv
      obtain ⟨q, hq, hmap⟩ := List.mem_map.mp hv
      by_cases hid : (q.id == uid) = true
      · rw [if_pos hid] at hmap
        rw [← hmap]
        exact hinv u0 (List.mem_of_find?_eq_some h)
      · rw [if_neg hid] at hmap
        rw [← hmap]
        exact hinv q hq

theorem user_role_invariant_amended_witness :
    roleInvariant [registeredUser] ∧
    (create_user id [registeredUser] { email := "b@c.d", password := "password123" }).2.role
      = "USER" := by
  have hinv : roleInvariant [registeredUser] := by
    intro u hu
    simp at hu
    rw [hu]
    right
    rfl
  exact ⟨hinv, (user_role_invariant_amended id [registeredUser]
    { email := "b@c.d", password := "password123" } 1 {} hinv).1⟩

/-- C6: six or more non-empty image files make both the create-product and the
update-product routers fail with the 400 "Maximum 5 images allowed per
product"; five or fewer non-empty files pass the count check, and the upload
facade itself rejects any batch of more than five files before delegating. -/
theorem image_count_limit (images : List UploadFile)
    (backend : List UploadFile → List String) (files : List UploadFile) :
    ((validImages images).length ≥ 6 →
      create_product_image_step images = Except.error maxImagesError ∧
      update_product_image_step images = Except.error maxImagesError) ∧
    ((validImages images).length ≤ 5 →
      (∃ v, create_product_image_step images = Except.ok v) ∧
      (∃ v, update_product_image_step images = Except.ok v)) ∧
    (files.length > 5 →
      upload_product_images backend files = Except.error maxImagesError) ∧
    maxImagesError.statusCode = 400 ∧
    maxImagesError.detail = "Maximum 5 images allowed per product" := by
  have hle : (validImages images).length ≤ images.length :=
    List.length_filter_le _ _
  refine ⟨?_, ?_, ?_, rfl, rfl⟩
  · intro h6
    have hpos : images.length > 0 := by omega
    have hgt : (validImages images).length > 5 := by omega
    constructor
    · simp [create_product_image_step, hpos, hgt]
    · simp [update_product_image_step, hpos, hgt]
  · intro h5
    have hngt : ¬ (validImages images).length > 5 := by omega
    by_cases hpos : images.length > 0
    · exact ⟨⟨validImages images, by simp [create_product_image_step, hpos, hngt]⟩,
        ⟨validImages images, by simp [update_product_image_step, hpos, hngt]⟩⟩
    · exact ⟨⟨[], by simp [create_product_image_step, hpos]⟩,
        ⟨[], by simp [update_product_image_step, hpos]⟩⟩
  · intro hbatch
    simp [upload_product_images, hbatch]

theorem image_count_limit_witness :
    (validImages (List.replicate 6 { filename := "a.png" })).length = 6 ∧
    create_product_image_step (List.replicate 6 { filename := "a.png" })
      = Except.error maxImagesError ∧
    update_product_image_step (List.replicate 6 { filename := "a.png" })
      = Except.error maxImagesError ∧
    upload_product_images (fun _ => [])
        (List.replicate 6 { filename := "a.png" })
      = Except.error maxImagesError := by
  have h := image_count_limit (List.replicate 6 { filename := "a.png" })
    (fun _ => []) (List.replicate 6 { filename := "a.png" })
  have h6 := h.1 (by rfl)
  exact ⟨by rfl, h6.1, h6.2, h.2.2.1 (by decide)⟩

theorem digitChar_isDigit {n : Nat} (h : n < 10) :
    (Nat.digitChar n).isDigit = true := by
  interval_cases n <;> decide

/-- C7: every inquiry acknowledgement carries a reference id of the exact form
`INQ-{YYYYMMDD}-{4 digits}` where the 4-digit block is the zero-padded Python
hash of the submitter's email reduced modulo 10000; the suffix depends only on
the email, not on the time of day or on any other inquiry field, so two
same-day submissions with the same email produce identical reference ids. -/
theorem inquiry_reference_code (pyHash : String → Int) (now : PyDateTime)
    (inq : InquiryRequest) :
    (submit_inquiry pyHash now inq).reference_id
      = "INQ-" ++ strftimeYmd now ++ "-"
          ++ fourDigits ((pyHash inq.email).emod 10000).toNat ∧
    ((pyHash inq.email).emod 10000).toNat < 10000 ∧
    (fourDigits ((pyHash inq.email).emod 10000).toNat).length = 4 ∧
    ((fourDigits ((pyHash inq.email).emod 10000).toNat).data.all Char.isDigit
      = true) ∧
    (∀ (now2 : PyDateTime) (inq2 : InquiryRequest), inq2.email = inq.email →
      now2.year = now.year → now2.month = now.month → now2.day = now.day →
      (submit_inquiry pyHash now2 inq2).reference_id
        = (submit_inquiry pyHash now inq).reference_id) := by
  have hlt : ((pyHash inq.email).emod 10000).toNat < 10000 := by
    have h1 : 0 ≤ (pyHash inq.email).emod 10000 :=
      Int.emod_nonneg _ (by norm_num)
    have h2 : (pyHash inq.email).emod 10000 < 10000 :=
      Int.emod_lt_of_pos _ (by norm_num)
    omega
  refine ⟨rfl, hlt, rfl, ?_, ?_⟩
  · unfold fourDigits
    simp only [String.data]
    simp only [List.all_cons, List.all_nil, Bool.and_true, Bool.and_eq_true]
    refine ⟨digitChar_isDigit ?_, digitChar_isDigit ?_, digitChar_isDigit ?_,
      digitChar_isDigit ?_⟩ <;> exact Nat.mod_lt _ (by norm_num)
  · intro now2 inq2 he hy hm hd
    unfold submit_inquiry inquiryReferenceId strftimeYmd
    rw [he, hy, hm, hd]

def inquiryMorning : InquiryRequest :=
  { first_name := "Ada", last_name := "L", email := "ada@example.com", phone_number := none, subject := "General Inquiry", message := "Hello, a question.", subscribe_newsletter := false }

def inquiryEvening : InquiryRequest :=
  { first_name := "Bob", last_name := "M", email := "ada@example.com", phone_number := some "1234567890", subject := "Feedback", message := "Another message entirely.", subscribe_newsletter := true }

theorem inquiry_reference_code_witness :
    (submit_inquiry (fun _ => 42) ⟨2026, 10, 12, 9, 30, 0⟩ inquiryMorning).reference_id
      = "INQ-20261012-0042" ∧
    (submit_inquiry (fun _ => 42) ⟨2026, 10, 12, 23, 59, 59⟩ inquiryEvening).reference_id
      = (submit_inquiry (fun _ => 42) ⟨2026, 10, 12, 9, 30, 0⟩ inquiryMorning).reference_id := by
  refine ⟨by rfl, ?_⟩
  exact (inquiry_reference_code (fun _ => 42) ⟨2026, 10, 12, 9, 30, 0⟩
    inquiryMorning).2.2.2.2 ⟨2026, 10, 12, 23, 59, 59⟩ inquiryEvening rfl rfl rfl rfl

/-- C8 counterexample: the users listing (`GET /users/`) declares `skip` and
`limit` as plain `int` parameters with no bounds, so `limit=1001` passes
parameter validation there — contradicting the claim that every listing
endpoint rejects `limit` outside 1–1000. -/
theorem pagination_users_unbounded :
    acceptsQuery usersLimitSpec 1001 = true
      ∧ acceptsQuery usersSkipSpec (-1) = true := by
  exact ⟨rfl, rfl⟩

/-- C8 (amended): the categories, products and unlocked-products listings
declare `skip` with `ge=0` (default 0) and `limit` with `ge=1, le=1000`
(default 100), and their validation accepts exactly the values inside those
bounds; the users listing shares the defaults `skip=0, limit=100` but declares
no bounds, so it accepts every integer. -/
theorem pagination_specs_amended (v : Int) :
    (usersSkipSpec.defaultVal = 0 ∧ usersLimitSpec.defaultVal = 100 ∧
     productsSkipSpec.defaultVal = 0 ∧ productsLimitSpec.defaultVal = 100 ∧
     unlockedSkipSpec.defaultVal = 0 ∧ unlockedLimitSpec.defaultVal = 100 ∧
     categoriesSkipSpec.defaultVal = 0 ∧ categoriesLimitSpec.defaultVal = 100) ∧
    (acceptsQuery productsSkipSpec v = true ↔ 0 ≤ v) ∧
    (acceptsQuery productsLimitSpec v = true ↔ 1 ≤ v ∧ v ≤ 1000) ∧
    (acceptsQuery unlockedSkipSpec v = true ↔ 0 ≤ v) ∧
    (acceptsQuery unlockedLimitSpec v = true ↔ 1 ≤ v ∧ v ≤ 1000) ∧
    (acceptsQuery categoriesSkipSpec v = true ↔ 0 ≤ v) ∧
    (acceptsQuery categoriesLimitSpec v = true ↔ 1 ≤ v ∧ v ≤ 1000) ∧
    acceptsQuery usersSkipSpec v = true ∧ acceptsQuery usersLimitSpec v = true := by
  refine ⟨⟨rfl, rfl, rfl, rfl, rfl, rfl, rfl, rfl⟩, ?_, ?_, ?_, ?_, ?_, ?_, rfl, rfl⟩ <;>
    simp [acceptsQuery, productsSkipSpec, productsLimitSpec, unlockedSkipSpec,
      unlockedLimitSpec, categoriesSkipSpec, categoriesLimitSpec]

theorem pagination_specs_amended_witness :
    acceptsQuery productsLimitSpec 1000 = true ∧
    acceptsQuery productsLimitSpec 1001 = false := by
  refine ⟨(pagination_specs_amended 1000).2.2.1.mpr (by decide), ?_⟩
  have h := (pagination_specs_amended 1001).2.2.1
  cases hacc : acceptsQuery productsLimitSpec 1001 with
  | false => rfl
  | true => exact absurd (h.mp hacc).2 (by decide)

end PFS
